import Mathlib

/-!
# Verification of the sendDetections batch submission pipeline

Shallow embedding, in Lean 4, of the core of the `sendDetections`
repository: the payload validator (`sendDetections/validators.py`), the
asynchronous submission client (`sendDetections/async_api_client.py`),
the batch orchestrator (`sendDetections/batch_processor.py`) and the
performance-metrics accumulator (`sendDetections/performance.py`).

Python dictionaries holding the `options` object are modelled as
association lists (`OptMap`), machine-level JSON integers as `Int`,
and time durations as `ℚ`.  The network is modelled as an environment
delivering one `AttemptOutcome` per HTTP attempt; `send_data` becomes a
fuel-indexed state machine mirroring the `while attempts <= max_retries`
loop of the source, and concurrency-limiter usage is recorded as an
event trace (`SendEvent`).
-/

/-- Python `dict` with boolean values, insertion-ordered, as used for the
`options` sub-dictionary of a payload (`{"debug": ..., "summary": ...}`). -/
def OptMap : Type := List (String × Bool)

instance : DecidableEq OptMap := fun a b => List.hasDecEq a b

/-- `m[k]` lookup: first binding of `k` wins (Python dict keys are unique,
so first = only). -/
def lookupKey : OptMap → String → Option Bool
  | [], _ => none
  | (k', v) :: rest, k => if k' = k then some v else lookupKey rest k

/-- `m[k] = v` assignment: replace the binding of `k` when present
(keeping its position, as a Python dict does), else append it. -/
def setKey : OptMap → String → Bool → OptMap
  | [], k, v => [(k, v)]
  | (k', v') :: rest, k, v =>
      if k' = k then (k', v) :: rest else (k', v') :: setKey rest k v

/-- `config.DEFAULT_API_OPTIONS = {"debug": False, "summary": True}`. -/
def DEFAULT_API_OPTIONS : OptMap := [("debug", false), ("summary", true)]

/-- `validators.IoC`: indicator of compromise. -/
structure IoC where
  type : String
  value : String
  sourceType : Option String
  field : Option String
deriving DecidableEq, Repr

/-- `validators.Detection`: how the IoC was detected. -/
structure Detection where
  type : String
  id : Option String
  name : Option String
  subType : Option String
deriving DecidableEq, Repr

/-- `validators.Incident`: optional incident cross-reference. -/
structure Incident where
  id : Option String
  name : Option String
  type : Option String
deriving DecidableEq, Repr

/-- `validators.DataEntry`: one detection entry of a payload. -/
structure DataEntry where
  ioc : IoC
  detection : Detection
  timestamp : Option String
  incident : Option Incident
  mitreCodes : Option (List String)
  malwares : Option (List String)
deriving DecidableEq, Repr

/-- `validators.ApiPayload`: the payload submitted to the API.  The raw
`options` dictionary is kept as an `OptMap` because
`AsyncApiClient.add_default_options` manipulates the raw dict, not the
pydantic model. -/
structure Payload where
  data : List DataEntry
  options : Option OptMap
  organization_ids : Option (List String)
deriving DecidableEq

/-- The first validation violation found in one `DataEntry`
(abstracting the human-readable message text of `validate_payload`). -/
inductive EntryIssue
  | iocTypeInvalid
  | iocValueEmpty
  | detectionTypeInvalid
  | subTypeMissing
  | timestampInvalid
deriving DecidableEq, Repr

/-- The first validation violation of a payload (abstracting the error
string returned by `validators.validate_payload`). -/
inductive ValidationIssue
  | dataEmpty
  | entryIssue (index : Nat) (issue : EntryIssue)
deriving DecidableEq, Repr

/-- `IoC.validate_ioc_type`: allowed IoC types. -/
def allowedIoCTypes : List String := ["ip", "domain", "hash", "vulnerability", "url"]

/-- `Detection.validate_detection_rule`: allowed detection types (besides
the `detector_*` convention). -/
def allowedDetectionTypes : List String :=
  ["correlation", "playbook", "detection_rule", "sandbox"]

/-- `DataEntry.validate_timestamp`'s check: ends with `Z`, contains `T`,
and after replacing `T`, `Z`, `-` by `:` at least five `:` occur. -/
def validTimestamp (ts : String) : Bool :=
  ts.endsWith "Z" && ts.contains 'T' &&
    5 ≤ ts.data.countP fun c => c == ':' || c == 'T' || c == 'Z' || c == '-'

/-- Validation of a single `DataEntry`, in the order the pydantic models
run their validators: IoC type, IoC value, detection type, detection
sub-type, timestamp.  `None`/empty sub-type and `None`/empty timestamp
follow Python falsiness. -/
def validateEntry (e : DataEntry) : Option EntryIssue :=
  if e.ioc.type ∉ allowedIoCTypes then some EntryIssue.iocTypeInvalid
  else if e.ioc.value = "" then some EntryIssue.iocValueEmpty
  else if ¬ (e.detection.type ∈ allowedDetectionTypes
              ∨ e.detection.type.startsWith "detector_") then
    some EntryIssue.detectionTypeInvalid
  else if e.detection.type = "detection_rule" ∧ e.detection.subType.getD "" = "" then
    some EntryIssue.subTypeMissing
  else
    match e.timestamp with
    | none => none
    | some ts =>
        if ts = "" then none
        else if validTimestamp ts then none
        else some EntryIssue.timestampInvalid

/-- First invalid entry of the `data` list, with its 0-based index. -/
def firstEntryIssue : Nat → List DataEntry → Option ValidationIssue
  | _, [] => none
  | i, e :: rest =>
      match validateEntry e with
      | some k => some (ValidationIssue.entryIssue i k)
      | none => firstEntryIssue (i + 1) rest

/-- `validators.validate_payload`: `None` when valid, else the first
violation.  `ApiPayload.data` carries `min_length=1`, so an empty `data`
list is a validation error. -/
def validate_payload (p : Payload) : Option ValidationIssue :=
  if p.data.isEmpty then some ValidationIssue.dataEmpty
  else firstEntryIssue 0 p.data

/-- `AsyncApiClient.add_default_options`: insert `DEFAULT_API_OPTIONS`
when the payload has no `options` key, then force `options["debug"] = True`
when the `debug` argument is set. -/
def add_default_options (p : Payload) (debug : Bool) : Payload :=
  let base : OptMap :=
    match p.options with
    | none => DEFAULT_API_OPTIONS
    | some o => o
  { p with options := some (if debug then setKey base "debug" true else base) }

/-! ## The asynchronous submission client (`AsyncApiClient.send_data`) -/

/-- The `summary` sub-object of an API response; each counter key may be
absent (`summary.get("submitted", 0)` defaults to 0). -/
structure SummaryCounts where
  submitted : Option Int
  processed : Option Int
  dropped : Option Int
deriving DecidableEq, Repr

/-- A parsed API response body; only the optional `summary` object is
inspected by the core. -/
structure ApiResponse where
  summary : Option SummaryCounts
deriving DecidableEq, Repr

/-- `{}` — returned when a 2xx body cannot be parsed as JSON. -/
def emptyResponse : ApiResponse := { summary := none }

/-- What one HTTP attempt of `send_data` observes.

* `success r` — status < 400 with JSON body `r`;
* `successUnparseable` — status < 400, body not parseable as JSON;
* `httpErrorResponse s ra` — a well-formed HTTP response with
  `status >= 400` (the `response.status >= 400` / `_handle_http_error`
  path); `ra` is the parsed integer `Retry-After` header of a 429, when
  present and valid;
* `clientResponseError s ra` — `aiohttp` raised `ClientResponseError`
  from the `post` call itself (status `s`, `Retry-After` `ra`);
* `timeoutError` — `asyncio.TimeoutError`;
* `connectionError` — `aiohttp.ClientConnectorError`;
* `unexpectedError` — any other exception. -/
inductive AttemptOutcome
  | success (r : ApiResponse)
  | successUnparseable
  | httpErrorResponse (status : Nat) (retryAfter : Option Nat)
  | clientResponseError (status : Nat) (retryAfter : Option Nat)
  | timeoutError
  | connectionError
  | unexpectedError
deriving DecidableEq, Repr

/-- The typed error classes of `sendDetections/errors.py` that
`send_data` can raise, plus the generic `ApiError` wrapper
(`apiError`). -/
inductive SendError
  | payloadValidationError
  | apiAuthenticationError
  | apiAccessDeniedError
  | apiRateLimitError
  | apiServerError
  | apiClientError
  | apiConnectionError
  | apiTimeoutError
  | apiError
deriving DecidableEq, Repr

/-- The status-code to typed-error mapping of `send_data`'s
`except aiohttp.ClientResponseError` branch (lines 284–294, repeated at
328–339). -/
def typedErrorFor (status : Nat) : SendError :=
  if status = 401 then SendError.apiAuthenticationError
  else if status = 403 then SendError.apiAccessDeniedError
  else if status = 429 then SendError.apiRateLimitError
  else if 500 ≤ status ∧ status < 600 then SendError.apiServerError
  else SendError.apiClientError

/-- Client construction parameters (`AsyncApiClient.__init__`). -/
structure ClientConfig where
  max_retries : Nat
  retry_delay : ℚ
  retry_status_codes : List Nat := [429, 500, 502, 503, 504]
  max_concurrent : Nat := 5
deriving DecidableEq

/-- Retry delay chosen for a `ClientResponseError`: the parsed
`Retry-After` header for a 429 that carries one, else exponential
backoff `retry_delay * 2 ** attempts`. -/
def creDelay (cfg : ClientConfig) (attempts : Nat) (status : Nat)
    (retryAfter : Option Nat) : ℚ :=
  if status = 429 then
    match retryAfter with
    | some n => (n : ℚ)
    | none => cfg.retry_delay * 2 ^ attempts
  else cfg.retry_delay * 2 ^ attempts

/-- Events observable during one `send_data` call: concurrency-limiter
slot acquisition/release, the start of an HTTP attempt (with the value
of the `attempts` counter), and an `asyncio.sleep` with its duration. -/
inductive SendEvent
  | acquire
  | release
  | attempt (i : Nat)
  | sleep (d : ℚ)
deriving DecidableEq, Repr

deriving instance DecidableEq for Except

/-- Outcome of a `send_data` call: the returned body or raised typed
error, together with the event trace. -/
structure SendResult where
  result : Except SendError ApiResponse
  trace : List SendEvent
deriving DecidableEq

def isAttemptEv : SendEvent → Bool
  | SendEvent.attempt _ => true
  | _ => false

def isAcquireEv : SendEvent → Bool
  | SendEvent.acquire => true
  | _ => false

def isReleaseEv : SendEvent → Bool
  | SendEvent.release => true
  | _ => false

/-- Number of HTTP attempts recorded in a trace. -/
def attemptCount (tr : List SendEvent) : Nat := tr.countP isAttemptEv

/-- The sleep durations of a trace, in order. -/
def sleepsOf (tr : List SendEvent) : List ℚ :=
  tr.filterMap fun e =>
    match e with
    | SendEvent.sleep d => some d
    | _ => none

/-- The `while attempts <= self.max_retries` loop of `send_data`
(lines 215–345).  `fuel` is `max_retries + 1 - attempts`, so `fuel = 0`
is the loop exit `attempts > max_retries` (the post-loop re-raise of
`last_error`, lines 327–345 — unreachable from `attempts = 0` since
every retry branch checks `attempts < max_retries` before incrementing).
The environment `outs` yields the outcome of the attempt made while the
counter equals the given index.

Faithfulness notes mirroring the source:
* a 2xx response returns its (possibly empty) parsed body;
* a well-formed HTTP error response (`status >= 400`) makes
  `_handle_http_error` raise a typed error, which none of the
  `except aiohttp.ClientResponseError / asyncio.TimeoutError /
  ClientConnectorError` clauses match, so the final `except Exception`
  clause re-wraps it as the generic `ApiError("Unexpected error: ...")`
  — no retry, regardless of status or `Retry-After`;
* a raised `ClientResponseError` is retried while its status is in
  `retry_status_codes` and `attempts < max_retries` (with the
  `Retry-After` override for 429), else converted to the typed error;
* timeouts and connection errors are retried with exponential backoff,
  else converted to `ApiTimeoutError` / `ApiConnectionError`. -/
def sendLoop (cfg : ClientConfig) (retry : Bool) (outs : Nat → AttemptOutcome) :
    Nat → Nat → Option AttemptOutcome → SendResult
  | 0, _, lastError =>
      { result := Except.error
          (match lastError with
           | some (AttemptOutcome.clientResponseError s _) => typedErrorFor s
           | some AttemptOutcome.timeoutError => SendError.apiTimeoutError
           | some AttemptOutcome.connectionError => SendError.apiConnectionError
           | _ => SendError.apiError),
        trace := [] }
  | fuel + 1, attempts, _ =>
      match outs attempts with
      | AttemptOutcome.success r =>
          { result := Except.ok r, trace := [SendEvent.attempt attempts] }
      | AttemptOutcome.successUnparseable =>
          { result := Except.ok emptyResponse, trace := [SendEvent.attempt attempts] }
      | AttemptOutcome.httpErrorResponse _ _ =>
          { result := Except.error SendError.apiError,
            trace := [SendEvent.attempt attempts] }
      | AttemptOutcome.clientResponseError s ra =>
          if retry ∧ s ∈ cfg.retry_status_codes ∧ attempts < cfg.max_retries then
            let next := sendLoop cfg retry outs fuel (attempts + 1)
              (some (AttemptOutcome.clientResponseError s ra))
            { result := next.result,
              trace := SendEvent.attempt attempts ::
                SendEvent.sleep (creDelay cfg attempts s ra) :: next.trace }
          else
            { result := Except.error (typedErrorFor s),
              trace := [SendEvent.attempt attempts] }
      | AttemptOutcome.timeoutError =>
          if retry ∧ attempts < cfg.max_retries then
            let next := sendLoop cfg retry outs fuel (attempts + 1)
              (some AttemptOutcome.timeoutError)
            { result := next.result,
              trace := SendEvent.attempt attempts ::
                SendEvent.sleep (cfg.retry_delay * 2 ^ attempts) :: next.trace }
          else
            { result := Except.error SendError.apiTimeoutError,
              trace := [SendEvent.attempt attempts] }
      | AttemptOutcome.connectionError =>
          if retry ∧ attempts < cfg.max_retries then
            let next := sendLoop cfg retry outs fuel (attempts + 1)
              (some AttemptOutcome.connectionError)
            { result := next.result,
              trace := SendEvent.attempt attempts ::
                SendEvent.sleep (cfg.retry_delay * 2 ^ attempts) :: next.trace }
          else
            { result := Except.error SendError.apiConnectionError,
              trace := [SendEvent.attempt attempts] }
      | AttemptOutcome.unexpectedError =>
          { result := Except.error SendError.apiError,
            trace := [SendEvent.attempt attempts] }

/-- `AsyncApiClient.send_data`: validate, merge default options, then run
the retry loop while holding one slot of the concurrency limiter
(`async with self._semaphore:` wraps the whole loop, releasing on exit
or exception). -/
def send_data (cfg : ClientConfig) (p : Payload) (debug retry : Bool)
    (outs : Nat → AttemptOutcome) : SendResult :=
  match validate_payload p with
  | some _ => { result := Except.error SendError.payloadValidationError, trace := [] }
  | none =>
      let _payload_dict := add_default_options p debug
      let inner := sendLoop cfg retry outs (cfg.max_retries + 1) 0 none
      { result := inner.result,
        trace := SendEvent.acquire :: inner.trace ++ [SendEvent.release] }

/-- `true` when some `sleep` event occurs while the limiter slot is held
(between an `acquire` and the matching `release`). -/
def sleepWhileHeld : Bool → List SendEvent → Bool
  | _, [] => false
  | _, SendEvent.acquire :: rest => sleepWhileHeld true rest
  | _, SendEvent.release :: rest => sleepWhileHeld false rest
  | held, SendEvent.sleep _ :: rest => held || sleepWhileHeld held rest
  | held, SendEvent.attempt _ :: rest => sleepWhileHeld held rest

/-- A backoff-retryable outcome without a `Retry-After` override: a
timeout, a connection error, or a raised `ClientResponseError` whose
status is in the configured retryable set and which carries no valid
`Retry-After` header when it is a 429. -/
def RetryableNoOverride (cfg : ClientConfig) (o : AttemptOutcome) : Prop :=
  o = AttemptOutcome.timeoutError ∨ o = AttemptOutcome.connectionError ∨
    ∃ s ra, o = AttemptOutcome.clientResponseError s ra ∧
      s ∈ cfg.retry_status_codes ∧ (s = 429 → ra = none)

/-- A backoff-retryable outcome, regardless of any `Retry-After`
override (the override changes only the sleep, never the raised
error). -/
def RetryableOutcome (cfg : ClientConfig) (o : AttemptOutcome) : Prop :=
  o = AttemptOutcome.timeoutError ∨ o = AttemptOutcome.connectionError ∨
    ∃ s ra, o = AttemptOutcome.clientResponseError s ra ∧ s ∈ cfg.retry_status_codes

/-- The typed error `send_data` converts a failed attempt's exception
into, both in the not-retrying else-branches (lines 284–294, 307, 320)
and in the post-loop re-raise (lines 327–345): `ClientResponseError` by
status, timeout to `ApiTimeoutError`, connection error to
`ApiConnectionError`; anything else only ever produces the generic
`ApiError`. -/
def lastFailureError : AttemptOutcome → SendError
  | AttemptOutcome.clientResponseError s _ => typedErrorFor s
  | AttemptOutcome.timeoutError => SendError.apiTimeoutError
  | AttemptOutcome.connectionError => SendError.apiConnectionError
  | _ => SendError.apiError

/-! ## Payload splitting and summary aggregation
(`AsyncApiClient.split_and_send`) -/

/-- Python `range(0, n, step)` for `step >= 1`: the chunk start indices
`0, step, 2*step, ...` below `n` — exactly `ceil(n/step)` of them. -/
def pyRangeStep (n step : Nat) : List Nat :=
  (List.range ((n + step - 1) / step)).map (· * step)

/-- The `batches` list built by `split_and_send` (lines 420–432):
for each start index `i`, a copy of the payload whose `data` is the
slice `data[i : i+batch_size]` and whose other fields are those of
`base_payload = dict(payload)` minus `data`. -/
def splitPayload (p : Payload) (batch_size : Nat) : List Payload :=
  (pyRangeStep p.data.length batch_size).map fun i =>
    { p with data := (p.data.drop i).take batch_size }

/-- One step of the summary-merging loop of `split_and_send`
(lines 443–448): responses lacking a `summary` key are skipped; counter
keys missing from a `summary` default to 0. -/
def addSummary (acc : Int × Int × Int) (r : ApiResponse) : Int × Int × Int :=
  match r.summary with
  | some s =>
      (acc.1 + s.submitted.getD 0, acc.2.1 + s.processed.getD 0,
        acc.2.2 + s.dropped.getD 0)
  | none => acc

/-- The merged (submitted, processed, dropped) totals of a list of
per-chunk responses. -/
def mergeSummary (rs : List ApiResponse) : Int × Int × Int :=
  rs.foldl addSummary (0, 0, 0)

/-- The contribution of one response to the merged totals: its summary's
counters with absent keys (or an absent summary) read as 0. -/
def summaryTriple (r : ApiResponse) : Int × Int × Int :=
  match r.summary with
  | some s => (s.submitted.getD 0, s.processed.getD 0, s.dropped.getD 0)
  | none => (0, 0, 0)

/-- The merged response object of `split_and_send`. -/
def mergeResponses (rs : List ApiResponse) : ApiResponse :=
  { summary := some
      { submitted := some (mergeSummary rs).1,
        processed := some (mergeSummary rs).2.1,
        dropped := some (mergeSummary rs).2.2 } }

/-- `{"summary": {"submitted": 0, "processed": 0, "dropped": 0}}`. -/
def zeroResponse : ApiResponse :=
  { summary := some { submitted := some 0, processed := some 0, dropped := some 0 } }

/-- `AsyncApiClient.split_and_send` (lines 387–455), with the network
abstracted by a function `send` from a chunk payload to its (successful)
response: validate the whole payload first (raising
`PayloadValidationError` on failure), return a zero summary when `data`
is empty, else split into batches, send each, and merge the summaries. -/
def split_and_send (p : Payload) (batch_size : Nat)
    (send : Payload → ApiResponse) : Except SendError ApiResponse :=
  match validate_payload p with
  | some _ => Except.error SendError.payloadValidationError
  | none =>
      if p.data.isEmpty then Except.ok zeroResponse
      else Except.ok (mergeResponses ((splitPayload p batch_size).map send))

/-! ## The batch orchestrator (`BatchProcessor.process_files`) -/

/-- The outcome of submitting one already-loaded payload file through
`self.client.send_data`. -/
inductive SubmitOutcome
  | ok (r : ApiResponse)
  | err (e : SendError)
deriving DecidableEq, Repr

/-- The per-file entry appended to `results`: the response, or the
`{"error": str(e)}` dict built by the inner `process_payload`'s
blanket `except Exception` (batch_processor.py lines 144–164), which
captures every exception type — including `ApiAuthenticationError`. -/
inductive FileResult
  | ok (r : ApiResponse)
  | errorEntry (e : SendError)
deriving DecidableEq, Repr

/-- The inner `process_payload`: success gives `(result, True)`, any
exception gives `({"error": str(e)}, False)`. -/
def process_payload (o : SubmitOutcome) : FileResult × Bool :=
  match o with
  | SubmitOutcome.ok r => (FileResult.ok r, true)
  | SubmitOutcome.err e => (FileResult.errorEntry e, false)

/-- The value returned by `process_files`: the per-file results and the
aggregation computed from them (lines 190–206). -/
structure BatchRunResult where
  results : List FileResult
  submitted : Int
  processed : Int
  dropped : Int
  successful : Nat
  failed : Nat
deriving DecidableEq

/-- One step of the aggregation loop of `process_files`: an `"error"`
entry counts as failed; otherwise the file is successful and its
`summary`, when present, is added to the totals. -/
def aggregateStep (acc : BatchRunResult) (fr : FileResult) : BatchRunResult :=
  match fr with
  | FileResult.errorEntry _ => { acc with failed := acc.failed + 1 }
  | FileResult.ok r =>
      match r.summary with
      | some s =>
          { acc with
            successful := acc.successful + 1
            submitted := acc.submitted + s.submitted.getD 0
            processed := acc.processed + s.processed.getD 0
            dropped := acc.dropped + s.dropped.getD 0 }
      | none => { acc with successful := acc.successful + 1 }

/-- `BatchProcessor.process_files` (lines 84–237) over already-loaded
payloads, with each file's submission outcome supplied by the
environment.  File loading (and its propagated IO/JSON errors) precedes
this phase and is out of scope.  The `Except` result models that the
function could propagate an exception to its caller: it never does for
submission failures, because the inner `process_payload` catches every
exception and turns it into a per-file `{"error": ...}` entry. -/
def process_files (outs : List SubmitOutcome) : Except SendError BatchRunResult :=
  let results := outs.map fun o => (process_payload o).1
  Except.ok (results.foldl aggregateStep
    { results := results, submitted := 0, processed := 0, dropped := 0,
      successful := 0, failed := 0 })

def isErrorEntry : FileResult → Bool
  | FileResult.errorEntry _ => true
  | _ => false

def isOkEntry : FileResult → Bool
  | FileResult.ok _ => true
  | _ => false

/-- Whether a submission outcome is an exception. -/
def submitErrB : SubmitOutcome → Bool
  | SubmitOutcome.err _ => true
  | _ => false

/-! ## Performance metrics (`performance.PerformanceMetrics`) -/

/-- The latency/counter state of `PerformanceMetrics` (the fields
touched by `record_api_call` and `end`; entity/batch/error tracking is
orthogonal to the latency claims and omitted).  `minTime = none` encodes
the `float('inf')` initial sentinel; durations are rationals. -/
structure PerfMetrics where
  api_calls : Nat
  success_calls : Nat
  failed_calls : Nat
  total_time : ℚ
  minTime : Option ℚ
  maxTime : ℚ
  avgTime : ℚ
deriving DecidableEq

/-- `PerformanceMetrics.__init__`. -/
def initMetrics : PerfMetrics :=
  { api_calls := 0, success_calls := 0, failed_calls := 0, total_time := 0,
    minTime := none, maxTime := 0, avgTime := 0 }

/-- `PerformanceMetrics.record_api_call` (lines 81–100): only successful
calls update `min_time`/`max_time`. -/
def record_api_call (m : PerfMetrics) (duration : ℚ) (success : Bool) : PerfMetrics :=
  if success then
    { m with
      api_calls := m.api_calls + 1
      success_calls := m.success_calls + 1
      minTime := some
        (match m.minTime with
         | none => duration
         | some v => min v duration)
      maxTime := max m.maxTime duration }
  else
    { m with api_calls := m.api_calls + 1, failed_calls := m.failed_calls + 1 }

/-- `PerformanceMetrics.end` (lines 64–79) with the wall-clock elapsed
seconds `(end_time - start_time).total_seconds()` passed explicitly:
`avg_time = total_time / success_calls` when any call succeeded. -/
def endMetrics (m : PerfMetrics) (totalTime : ℚ) : PerfMetrics :=
  { m with
    total_time := totalTime
    avgTime := if 0 < m.success_calls then totalTime / (m.success_calls : ℚ)
               else m.avgTime }

/-- Fold `record_api_call` over a run's `(duration, success)` pairs. -/
def applyCalls (records : List (ℚ × Bool)) (m : PerfMetrics) : PerfMetrics :=
  records.foldl (fun m r => record_api_call m r.1 r.2) m

/-- The durations of the successful attempts of a run, in order. -/
def successDurations (records : List (ℚ × Bool)) : List ℚ :=
  records.filterMap fun r => if r.2 then some r.1 else none

/-- Arithmetic mean of a list of rationals. -/
def ratMean (l : List ℚ) : ℚ := l.sum / (l.length : ℚ)

/-- The evolution of `min_time` over a run: the fold performed by the
successive `min(self.min_time, duration)` updates, with `none` for the
`float('inf')` start. -/
def minFold : Option ℚ → List ℚ → Option ℚ
  | acc, [] => acc
  | acc, d :: rest =>
      minFold (some (match acc with
        | none => d
        | some v => min v d)) rest

/-! ## Concrete fixtures used by witnesses and counterexamples -/

/-- A valid detection entry (the `{"ioc": {"type": "ip", "value":
"1.2.3.4"}, "detection": {"type": "playbook", "id": "test-id"}}` entry of
the repository's tests). -/
def sampleEntry : DataEntry :=
  { ioc := { type := "ip", value := "1.2.3.4", sourceType := none, field := none },
    detection := { type := "playbook", id := some "test-id", name := none, subType := none },
    timestamp := none, incident := none, mitreCodes := none, malwares := none }

/-- A valid one-entry payload. -/
def samplePayload : Payload :=
  { data := [sampleEntry], options := none, organization_ids := none }

/-- A valid five-entry payload carrying an `options` object that lacks
the `summary` key. -/
def payload5 : Payload :=
  { data := List.replicate 5 sampleEntry, options := some [("debug", false)],
    organization_ids := none }

/-- The empty-data payload of `test_split_and_send_empty_payload`:
`{"data": [], "options": {"debug": True}}`. -/
def emptyDataPayload : Payload :=
  { data := [], options := some [("debug", true)], organization_ids := none }

/-- `{"summary": {"submitted": 1, "processed": 1, "dropped": 0}}`. -/
def respOk : ApiResponse :=
  { summary := some { submitted := some 1, processed := some 1, dropped := some 0 } }

/-- A client with `max_retries=2, retry_delay=1` and default retryable
status codes. -/
def cfg2 : ClientConfig := { max_retries := 2, retry_delay := 1 }

/-- A client with `max_retries=1, retry_delay=1` (the configuration of
`test_send_data_rate_limit_retry`, up to the delay value). -/
def cfg1 : ClientConfig := { max_retries := 1, retry_delay := 1 }

/-! ## Helper lemmas -/

lemma creDelay_no_override (cfg : ClientConfig) (a s : Nat) (ra : Option Nat)
    (h : s = 429 → ra = none) : creDelay cfg a s ra = cfg.retry_delay * 2 ^ a := by
  by_cases hs : s = 429
  · simp [creDelay, hs, h hs]
  · simp [creDelay, hs]

lemma range'_eq_cons (a f : Nat) (hf : 1 ≤ f) :
    List.range' a f = a :: List.range' (a + 1) (f - 1) := by
  conv_lhs => rw [show f = f - 1 + 1 from by omega]
  rw [List.range'_succ]

/-- Behaviour of the retry loop when every attempt fails with a
backoff-retryable outcome: starting with `fuel` budget and counter
`attempts`, it performs exactly `fuel` further attempts, sleeps
`fuel - 1` times with the exponential delays `retry_delay * 2 ^ i` for
`i = attempts, ..., attempts + fuel - 2`, and ends in an error. -/
lemma sendLoop_all_retryable (cfg : ClientConfig) (outs : Nat → AttemptOutcome)
    (hout : ∀ i, RetryableNoOverride cfg (outs i)) :
    ∀ fuel attempts lastE, fuel + attempts = cfg.max_retries + 1 →
      attemptCount (sendLoop cfg true outs fuel attempts lastE).trace = fuel ∧
      sleepsOf (sendLoop cfg true outs fuel attempts lastE).trace
        = (List.range' attempts (fuel - 1)).map (fun i => cfg.retry_delay * 2 ^ i) ∧
      ∃ e, (sendLoop cfg true outs fuel attempts lastE).result = Except.error e := by
  intro fuel
  induction fuel with
  | zero =>
      intro a lastE _
      exact ⟨rfl, rfl, ⟨_, rfl⟩⟩
  | succ f ih =>
      intro a lastE hsum
      rcases hout a with h1 | h1 | ⟨s, ra, h1, hs, hra⟩
      · by_cases hlt : a < cfg.max_retries
        · have hf : 1 ≤ f := by omega
          have hrec := ih (a + 1) (some AttemptOutcome.timeoutError) (by omega)
          simp only [sendLoop, h1, hlt, and_true, true_and, if_true, reduceIte,
            attemptCount, sleepsOf, List.countP_cons, List.filterMap_cons] at hrec ⊢
          refine ⟨by simp [isAttemptEv, hrec.1], ?_, hrec.2.2⟩
          rw [Nat.add_sub_cancel, range'_eq_cons a f hf]
          simp [hrec.2.1]
        · have hf : f = 0 := by omega
          subst hf
          simp only [sendLoop, h1, hlt, and_false, reduceIte, attemptCount, sleepsOf]
          exact ⟨by simp [isAttemptEv], by simp, ⟨SendError.apiTimeoutError, by simp⟩⟩
      · by_cases hlt : a < cfg.max_retries
        · have hf : 1 ≤ f := by omega
          have hrec := ih (a + 1) (some AttemptOutcome.connectionError) (by omega)
          simp only [sendLoop, h1, hlt, and_true, true_and, if_true, reduceIte,
            attemptCount, sleepsOf, List.countP_cons, List.filterMap_cons] at hrec ⊢
          refine ⟨by simp [isAttemptEv, hrec.1], ?_, hrec.2.2⟩
          rw [Nat.add_sub_cancel, range'_eq_cons a f hf]
          simp [hrec.2.1]
        · have hf : f = 0 := by omega
          subst hf
          simp only [sendLoop, h1, hlt, and_false, reduceIte, attemptCount, sleepsOf]
          exact ⟨by simp [isAttemptEv], by simp, ⟨SendError.apiConnectionError, by simp⟩⟩
      · by_cases hlt : a < cfg.max_retries
        · have hf : 1 ≤ f := by omega
          have hrec := ih (a + 1) (some (AttemptOutcome.clientResponseError s ra)) (by omega)
          simp only [sendLoop, h1, hlt, hs, and_true, true_and, if_true, reduceIte,
            attemptCount, sleepsOf, List.countP_cons, List.filterMap_cons] at hrec ⊢
          refine ⟨by simp [isAttemptEv, hrec.1], ?_, hrec.2.2⟩
          rw [Nat.add_sub_cancel, range'_eq_cons a f hf, creDelay_no_override cfg a s ra hra]
          simp [hrec.2.1]
        · have hf : f = 0 := by omega
          subst hf
          simp only [sendLoop, h1, hlt, and_false, reduceIte, attemptCount, sleepsOf]
          exact ⟨by simp [isAttemptEv], by simp, ⟨typedErrorFor s, by simp⟩⟩

/-! ## Claim theorems -/

/-- C1: a client configured with `max_retries = N` whose every attempt
fails with a (code-)retryable failure — a timeout, a connection error,
or a raised `ClientResponseError` with a retryable status — with retry
enabled and no `Retry-After` override, makes exactly `N + 1` attempts
before raising, and sleeps exactly `N` times with the delays
`retry_delay * 2^0, ..., retry_delay * 2^(N-1)`, in that order. -/
theorem C1_retry_bound (cfg : ClientConfig) (p : Payload) (debug : Bool)
    (outs : Nat → AttemptOutcome)
    (hval : validate_payload p = none)
    (hout : ∀ i, RetryableNoOverride cfg (outs i)) :
    attemptCount (send_data cfg p debug true outs).trace = cfg.max_retries + 1 ∧
    sleepsOf (send_data cfg p debug true outs).trace
      = (List.range cfg.max_retries).map (fun i => cfg.retry_delay * 2 ^ i) ∧
    ∃ e, (send_data cfg p debug true outs).result = Except.error e := by
  have h := sendLoop_all_retryable cfg outs hout (cfg.max_retries + 1) 0 none rfl
  simp only [send_data, hval]
  refine ⟨?_, ?_, h.2.2⟩
  · simp only [attemptCount, List.countP_cons, List.countP_append] at h ⊢
    simp [isAttemptEv, h.1]
  · simp only [sleepsOf, List.filterMap_cons, List.filterMap_append] at h ⊢
    simp only [Nat.add_sub_cancel] at h
    rw [List.range_eq_range']
    simp [h.2.1]

/-- Witness for C1 at `max_retries = 2`, `retry_delay = 1`, all attempts
timing out: 3 attempts, sleeps `[1, 2]`. -/
theorem C1_retry_bound_witness :
    validate_payload samplePayload = none ∧
    attemptCount (send_data cfg2 samplePayload false true
      (fun _ => AttemptOutcome.timeoutError)).trace = 3 ∧
    sleepsOf (send_data cfg2 samplePayload false true
      (fun _ => AttemptOutcome.timeoutError)).trace = [1, 2] := by
  have h := C1_retry_bound cfg2 samplePayload false (fun _ => AttemptOutcome.timeoutError)
    (by decide) (fun _ => Or.inl rfl)
  refine ⟨by decide, h.1, ?_⟩
  rw [h.2.1]
  show (List.range 2).map (fun i => (1 : ℚ) * 2 ^ i) = [1, 2]
  simp [List.range_succ]

/-- On every retry iteration whose attempt fails retryably, `send_data`
either recurses or raises the typed error of that attempt's failure;
with every attempt retryable, the error finally raised is the typed
class of the last attempt's failure (the one made while the counter
equals `max_retries`). -/
lemma sendLoop_retryable_typed (cfg : ClientConfig) (outs : Nat → AttemptOutcome)
    (hout : ∀ i, RetryableOutcome cfg (outs i)) :
    ∀ fuel attempts lastE, fuel + attempts = cfg.max_retries + 1 → 1 ≤ fuel →
      (sendLoop cfg true outs fuel attempts lastE).result
        = Except.error (lastFailureError (outs cfg.max_retries)) := by
  intro fuel
  induction fuel with
  | zero => intro a lastE _ h1; exact absurd h1 (by omega)
  | succ f ih =>
      intro a lastE hsum _
      rcases hout a with h1 | h1 | ⟨s, ra, h1, hs⟩
      · by_cases hlt : a < cfg.max_retries
        · have hf : 1 ≤ f := by omega
          simp only [sendLoop, h1, hlt, and_true, true_and, reduceIte]
          exact ih (a + 1) (some AttemptOutcome.timeoutError) (by omega) hf
        · have hM : cfg.max_retries = a := by omega
          rw [hM]
          simp [sendLoop, h1, hlt, lastFailureError]
      · by_cases hlt : a < cfg.max_retries
        · have hf : 1 ≤ f := by omega
          simp only [sendLoop, h1, hlt, and_true, true_and, reduceIte]
          exact ih (a + 1) (some AttemptOutcome.connectionError) (by omega) hf
        · have hM : cfg.max_retries = a := by omega
          rw [hM]
          simp [sendLoop, h1, hlt, lastFailureError]
      · by_cases hlt : a < cfg.max_retries
        · have hf : 1 ≤ f := by omega
          simp only [sendLoop, h1, hlt, hs, and_true, true_and, reduceIte]
          exact ih (a + 1) (some (AttemptOutcome.clientResponseError s ra)) (by omega) hf
        · have hM : cfg.max_retries = a := by omega
          rw [hM]
          simp [sendLoop, h1, hlt, lastFailureError]

/-- C2 (amended): for failures that reach `send_data` as raised
`aiohttp` exceptions, the error-type dispatch is accurate — with retry
disabled, the single failure's typed class is raised after exactly one
attempt; with retry enabled and every attempt failing retryably,
exhaustion re-raises the typed class of the last observed failure
(`ClientResponseError` mapped by status, `ApiTimeoutError`,
`ApiConnectionError`), never a generic wrapper.  But a failure observed
as a well-formed HTTP error response is re-wrapped into the generic
`ApiError` after a single attempt, losing its classification. -/
theorem C2_last_failure_typed (cfg : ClientConfig) (p : Payload) (debug : Bool)
    (outs : Nat → AttemptOutcome) (hval : validate_payload p = none) :
    ((∃ s ra, outs 0 = AttemptOutcome.clientResponseError s ra) ∨
        outs 0 = AttemptOutcome.timeoutError ∨ outs 0 = AttemptOutcome.connectionError →
      (send_data cfg p debug false outs).result
          = Except.error (lastFailureError (outs 0)) ∧
        attemptCount (send_data cfg p debug false outs).trace = 1) ∧
    ((∀ i, RetryableOutcome cfg (outs i)) →
      (send_data cfg p debug true outs).result
        = Except.error (lastFailureError (outs cfg.max_retries))) ∧
    (∀ s ra, outs 0 = AttemptOutcome.httpErrorResponse s ra →
      (send_data cfg p debug true outs).result = Except.error SendError.apiError ∧
      attemptCount (send_data cfg p debug true outs).trace = 1) := by
  refine ⟨?_, ?_, ?_⟩
  · intro h
    simp only [send_data, hval]
    rcases h with ⟨s, ra, h0⟩ | h0 | h0 <;>
      constructor <;>
      simp [sendLoop, h0, lastFailureError, attemptCount, isAttemptEv]
  · intro hout
    simp only [send_data, hval]
    exact sendLoop_retryable_typed cfg outs hout (cfg.max_retries + 1) 0 none rfl
      (by omega)
  · intro s ra h0
    simp only [send_data, hval]
    constructor <;> simp [sendLoop, h0, attemptCount, isAttemptEv]

/-- Witness for the amended C2: a timeout with retry disabled raises
`ApiTimeoutError`; exhausted retries on a raised `ClientResponseError`
with status 503 raise `ApiServerError`; a well-formed 401 response
raises the generic `ApiError`. -/
theorem C2_last_failure_typed_witness :
    validate_payload samplePayload = none ∧
    (send_data cfg2 samplePayload false false
      (fun _ => AttemptOutcome.timeoutError)).result
        = Except.error SendError.apiTimeoutError ∧
    (send_data cfg2 samplePayload false true
      (fun _ => AttemptOutcome.clientResponseError 503 none)).result
        = Except.error SendError.apiServerError ∧
    (send_data cfg2 samplePayload false true
      (fun _ => AttemptOutcome.httpErrorResponse 401 none)).result
        = Except.error SendError.apiError := by
  have hval : validate_payload samplePayload = none := by decide
  have h1 := C2_last_failure_typed cfg2 samplePayload false
    (fun _ => AttemptOutcome.timeoutError) hval
  have h2 := C2_last_failure_typed cfg2 samplePayload false
    (fun _ => AttemptOutcome.clientResponseError 503 none) hval
  have h3 := C2_last_failure_typed cfg2 samplePayload false
    (fun _ => AttemptOutcome.httpErrorResponse 401 none) hval
  refine ⟨hval, (h1.1 (Or.inr (Or.inl rfl))).1, ?_, (h3.2.2 401 none rfl).1⟩
  have := h2.2.1 (fun _ => Or.inr (Or.inr ⟨503, none, rfl, by decide⟩))
  simpa [lastFailureError, typedErrorFor] using this

/-- C2: counter to the claim, when every attempt observes a well-formed
HTTP 401 error response, `send_data` raises the generic unclassified
`ApiError` wrapper — not `ApiAuthenticationError` — after a single
attempt (the typed error raised by `_handle_http_error` is swallowed by
the blanket `except Exception` clause and re-wrapped); a 503 response
with retry disabled is likewise downgraded to the generic wrapper. -/
theorem C2_http_error_generic_wrapper :
    (send_data cfg2 samplePayload false true
      (fun _ => AttemptOutcome.httpErrorResponse 401 none)).result
        = Except.error SendError.apiError ∧
    (send_data cfg2 samplePayload false true
      (fun _ => AttemptOutcome.httpErrorResponse 401 none)).result
        ≠ Except.error SendError.apiAuthenticationError ∧
    attemptCount (send_data cfg2 samplePayload false true
      (fun _ => AttemptOutcome.httpErrorResponse 401 none)).trace = 1 ∧
    (send_data cfg2 samplePayload false false
      (fun _ => AttemptOutcome.httpErrorResponse 503 none)).result
        = Except.error SendError.apiError := by
  refine ⟨by decide, by decide, by decide, by decide⟩

/-- C4: counter to the claim, a submission whose first attempt receives
an HTTP 429 response carrying `Retry-After: 2` (with `max_retries = 1`
and a 200 success available on the second attempt) does not sleep at
all and raises the generic `ApiError` after one attempt; the
`Retry-After`-honouring retry path is reachable only when `aiohttp`
itself raises a `ClientResponseError` (the situation the repository's
mocked test constructs), in which case the client does sleep exactly
`[2]` and return the success body. -/
theorem C4_retry_after_ignored :
    (send_data cfg1 samplePayload false true
      (fun i => if i = 0 then AttemptOutcome.httpErrorResponse 429 (some 2)
                else AttemptOutcome.success respOk)).result
        = Except.error SendError.apiError ∧
    sleepsOf (send_data cfg1 samplePayload false true
      (fun i => if i = 0 then AttemptOutcome.httpErrorResponse 429 (some 2)
                else AttemptOutcome.success respOk)).trace = [] ∧
    attemptCount (send_data cfg1 samplePayload false true
      (fun i => if i = 0 then AttemptOutcome.httpErrorResponse 429 (some 2)
                else AttemptOutcome.success respOk)).trace = 1 ∧
    (send_data cfg1 samplePayload false true
      (fun i => if i = 0 then AttemptOutcome.clientResponseError 429 (some 2)
                else AttemptOutcome.success respOk)).result = Except.ok respOk ∧
    sleepsOf (send_data cfg1 samplePayload false true
      (fun i => if i = 0 then AttemptOutcome.clientResponseError 429 (some 2)
                else AttemptOutcome.success respOk)).trace = [2] := by
  have hval : validate_payload samplePayload = none := by decide
  refine ⟨by decide, ?_, by decide, by decide, ?_⟩
  · simp [send_data, hval, sendLoop, sleepsOf, cfg1]
  · simp [send_data, hval, sendLoop, sleepsOf, cfg1, creDelay]

/-- The retry loop itself never touches the concurrency limiter: its
trace contains no acquire and no release events. -/
lemma sendLoop_no_acquire_release (cfg : ClientConfig) (retry : Bool)
    (outs : Nat → AttemptOutcome) :
    ∀ fuel attempts lastE,
      (sendLoop cfg retry outs fuel attempts lastE).trace.countP isAcquireEv = 0 ∧
      (sendLoop cfg retry outs fuel attempts lastE).trace.countP isReleaseEv = 0 := by
  intro fuel
  induction fuel with
  | zero => intro a lastE; exact ⟨rfl, rfl⟩
  | succ f ih =>
      intro a lastE
      rcases h : outs a with r | _ | ⟨s, ra⟩ | ⟨s, ra⟩ | _ | _ | _
      · simp only [sendLoop, h]
        exact ⟨by simp [isAcquireEv], by simp [isReleaseEv]⟩
      · simp only [sendLoop, h]
        exact ⟨by simp [isAcquireEv], by simp [isReleaseEv]⟩
      · simp only [sendLoop, h]
        exact ⟨by simp [isAcquireEv], by simp [isReleaseEv]⟩
      · simp only [sendLoop, h]
        split
        · have := ih (a + 1) (some (AttemptOutcome.clientResponseError s ra))
          exact ⟨by simp [isAcquireEv, this.1], by simp [isReleaseEv, this.2]⟩
        · exact ⟨by simp [isAcquireEv], by simp [isReleaseEv]⟩
      · simp only [sendLoop, h]
        split
        · have := ih (a + 1) (some AttemptOutcome.timeoutError)
          exact ⟨by simp [isAcquireEv, this.1], by simp [isReleaseEv, this.2]⟩
        · exact ⟨by simp [isAcquireEv], by simp [isReleaseEv]⟩
      · simp only [sendLoop, h]
        split
        · have := ih (a + 1) (some AttemptOutcome.connectionError)
          exact ⟨by simp [isAcquireEv, this.1], by simp [isReleaseEv, this.2]⟩
        · exact ⟨by simp [isAcquireEv], by simp [isReleaseEv]⟩
      · simp only [sendLoop, h]
        exact ⟨by simp [isAcquireEv], by simp [isReleaseEv]⟩

/-- C9: counter to the claim, with `max_retries = 1` and both attempts
timing out, a sleep event occurs while the limiter slot is held
(`async with self._semaphore:` wraps the whole retry loop), and the
two attempts acquire the limiter once in total, not once each. -/
theorem C9_slot_held_during_sleep :
    sleepWhileHeld false (send_data cfg1 samplePayload false true
      (fun _ => AttemptOutcome.timeoutError)).trace = true ∧
    (send_data cfg1 samplePayload false true
      (fun _ => AttemptOutcome.timeoutError)).trace.countP isAcquireEv = 1 ∧
    attemptCount (send_data cfg1 samplePayload false true
      (fun _ => AttemptOutcome.timeoutError)).trace = 2 := by
  refine ⟨by decide, by decide, by decide⟩

/-- C9 (amended): each `send_data` call acquires exactly one
concurrency-limiter slot, before its first attempt, and releases it
exactly once, after its final attempt — the slot is held for the whole
call, across every retry attempt and every backoff sleep. -/
theorem C9_single_slot_per_call (cfg : ClientConfig) (p : Payload)
    (debug retry : Bool) (outs : Nat → AttemptOutcome)
    (hval : validate_payload p = none) :
    (send_data cfg p debug retry outs).trace.head? = some SendEvent.acquire ∧
    (send_data cfg p debug retry outs).trace.getLast? = some SendEvent.release ∧
    (send_data cfg p debug retry outs).trace.countP isAcquireEv = 1 ∧
    (send_data cfg p debug retry outs).trace.countP isReleaseEv = 1 := by
  have h := sendLoop_no_acquire_release cfg retry outs (cfg.max_retries + 1) 0 none
  simp only [send_data, hval]
  refine ⟨rfl, ?_, ?_, ?_⟩
  · show (SendEvent.acquire :: _ ++ [SendEvent.release]).getLast? = _
    rw [show SendEvent.acquire :: (sendLoop cfg retry outs (cfg.max_retries + 1) 0 none).trace
          ++ [SendEvent.release]
        = (SendEvent.acquire :: (sendLoop cfg retry outs (cfg.max_retries + 1) 0 none).trace)
          ++ [SendEvent.release] from rfl]
    exact List.getLast?_concat _
  · simp [List.countP_cons, List.countP_append, isAcquireEv, h.1]
  · simp [List.countP_cons, List.countP_append, isReleaseEv, h.2]

/-- Witness for the amended C9 at a concrete client and trace. -/
theorem C9_single_slot_per_call_witness :
    validate_payload samplePayload = none ∧
    (send_data cfg1 samplePayload false true
      (fun _ => AttemptOutcome.timeoutError)).trace.head? = some SendEvent.acquire ∧
    (send_data cfg1 samplePayload false true
      (fun _ => AttemptOutcome.timeoutError)).trace.countP isAcquireEv = 1 := by
  have h := C9_single_slot_per_call cfg1 samplePayload false true
    (fun _ => AttemptOutcome.timeoutError) (by decide)
  exact ⟨by decide, h.1, h.2.2.1⟩

lemma ceil_shift (K S : Nat) (hS : 0 < S) (hK : 1 ≤ K) :
    (K + S - 1) / S = ((K - S) + S - 1) / S + 1 := by
  rcases le_or_lt S K with h | h
  · rw [show K - S + S - 1 = K - 1 from by omega,
      show K + S - 1 = (K - 1) + S from by omega,
      Nat.add_div_right _ hS]
  · rw [show K - S = 0 from by omega,
      show K + S - 1 = (K - 1) + S from by omega, Nat.add_div_right _ hS,
      Nat.div_eq_of_lt (by omega), Nat.div_eq_of_lt (by omega)]

lemma join_chunks {α : Type} (S : Nat) (hS : 0 < S) :
    ∀ (n : Nat) (l : List α), l.length ≤ n →
      ((pyRangeStep l.length S).map (fun i => (l.drop i).take S)).flatten = l := by
  intro n
  induction n with
  | zero =>
      intro l hl
      have hnil : l = [] := List.eq_nil_of_length_eq_zero (Nat.le_zero.mp hl)
      subst hnil
      simp [pyRangeStep, Nat.div_eq_of_lt (show 0 + S - 1 < S by omega)]
  | succ n ih =>
      intro l hl
      match l with
      | [] => simp [pyRangeStep, Nat.div_eq_of_lt (show 0 + S - 1 < S by omega)]
      | x :: xs =>
          have hK : 1 ≤ (x :: xs).length := by simp
          have hm := ceil_shift (x :: xs).length S hS hK
          have hlen : ((x :: xs).drop S).length = (x :: xs).length - S := by
            simp [List.length_drop]
          have hlc : (x :: xs).length = xs.length + 1 := rfl
          have hxs : xs.length ≤ n := by
            rw [hlc] at hl
            exact Nat.le_of_succ_le_succ hl
          have hb : ((x :: xs).drop S).length ≤ n := by
            rw [hlen]
            calc (x :: xs).length - S ≤ (x :: xs).length - 1 :=
                  Nat.sub_le_sub_left hS _
              _ = xs.length := by rw [hlc, Nat.add_sub_cancel]
              _ ≤ n := hxs
          have hih := ih ((x :: xs).drop S) hb
          rw [pyRangeStep, hm, List.range_succ_eq_map, List.map_cons, List.map_cons,
            List.map_map, List.map_map, List.flatten_cons]
          have hfun :
              (((fun i => List.take S (List.drop i (x :: xs))) ∘ fun i => i * S) ∘ Nat.succ)
                = fun j => List.take S (List.drop (j * S) ((x :: xs).drop S)) := by
            funext j
            simp only [Function.comp_apply, List.drop_drop]
            rw [Nat.succ_mul, Nat.add_comm (j * S) S]
          rw [hfun]
          rw [pyRangeStep, hlen, List.map_map] at hih
          have hcomp :
              ((fun i => List.take S (List.drop i ((x :: xs).drop S))) ∘ fun i => i * S)
                = fun j => List.take S (List.drop (j * S) ((x :: xs).drop S)) := by
            funext j
            simp [Function.comp_apply]
          rw [hcomp] at hih
          rw [hih]
          rw [show (0 * S) = 0 from by omega, List.drop_zero]
          exact List.take_append_drop S (x :: xs)

/-- C5: for a payload of `K ≥ 1` entries and chunk size `S ≥ 1`,
`split_and_send`'s partition yields exactly `ceil(K/S)` contiguous
chunks in original order, each chunk's `data` has length at most `S`,
the in-order concatenation of the chunks' `data` is exactly the
original `data`, and every chunk carries the payload's `options` and
`organization_ids` unchanged. -/
theorem C5_split_correctness (p : Payload) (S : Nat) (hS : 1 ≤ S)
    (hK : 1 ≤ p.data.length) :
    (splitPayload p S).length = (p.data.length + S - 1) / S ∧
    (∀ c ∈ splitPayload p S, c.data.length ≤ S) ∧
    ((splitPayload p S).map Payload.data).flatten = p.data ∧
    (∀ c ∈ splitPayload p S, c.options = p.options ∧
      c.organization_ids = p.organization_ids) := by
  refine ⟨?_, ?_, ?_, ?_⟩
  · simp [splitPayload, pyRangeStep]
  · intro c hc
    simp only [splitPayload, List.mem_map] at hc
    obtain ⟨i, _, rfl⟩ := hc
    simp [List.length_take]
  · rw [splitPayload, List.map_map]
    have : (Payload.data ∘ fun i => { p with data := (p.data.drop i).take S })
        = fun i => (p.data.drop i).take S := rfl
    rw [this]
    exact join_chunks S (by omega) p.data.length p.data le_rfl
  · intro c hc
    simp only [splitPayload, List.mem_map] at hc
    obtain ⟨i, _, rfl⟩ := hc
    exact ⟨rfl, rfl⟩

lemma addSummary_eq (acc : Int × Int × Int) (r : ApiResponse) :
    addSummary acc r = (acc.1 + (summaryTriple r).1, acc.2.1 + (summaryTriple r).2.1,
      acc.2.2 + (summaryTriple r).2.2) := by
  cases hr : r.summary <;> simp [addSummary, summaryTriple, hr]

lemma foldl_addSummary (rs : List ApiResponse) :
    ∀ acc : Int × Int × Int,
      rs.foldl addSummary acc
        = (acc.1 + (rs.map (fun r => (summaryTriple r).1)).sum,
           acc.2.1 + (rs.map (fun r => (summaryTriple r).2.1)).sum,
           acc.2.2 + (rs.map (fun r => (summaryTriple r).2.2)).sum) := by
  induction rs with
  | nil => intro acc; simp
  | cons r rest ih =>
      intro acc
      rw [List.foldl_cons, addSummary_eq, ih]
      simp [add_assoc]

/-- C6: the merged summary of a list of per-chunk responses is the
componentwise sum of the responses' summary counters, where a response
lacking a `summary` key (or a summary lacking a counter key)
contributes 0 to each sum and causes no error. -/
theorem C6_aggregation_additivity (rs : List ApiResponse) :
    mergeSummary rs
      = ((rs.map (fun r => (summaryTriple r).1)).sum,
         (rs.map (fun r => (summaryTriple r).2.1)).sum,
         (rs.map (fun r => (summaryTriple r).2.2)).sum) ∧
    (mergeResponses rs).summary
      = some { submitted := some ((rs.map (fun r => (summaryTriple r).1)).sum),
               processed := some ((rs.map (fun r => (summaryTriple r).2.1)).sum),
               dropped := some ((rs.map (fun r => (summaryTriple r).2.2)).sum) } := by
  have h := foldl_addSummary rs (0, 0, 0)
  simp only [zero_add] at h
  refine ⟨h, ?_⟩
  simp only [mergeResponses, mergeSummary]
  rw [h]

/-- C7: counter to the claim, `split_and_send` on a payload whose
`data` is empty raises `PayloadValidationError` — the up-front
validation rejects empty `data` (`min_length=1`), so the zero-valued
aggregate return is unreachable and the zero aggregate is never
produced, whatever the network would answer. -/
theorem C7_empty_data_validation_error :
    ∀ send : Payload → ApiResponse,
      split_and_send emptyDataPayload 100 send
        = Except.error SendError.payloadValidationError ∧
      validate_payload emptyDataPayload = some ValidationIssue.dataEmpty ∧
      split_and_send emptyDataPayload 100 send ≠ Except.ok zeroResponse :=
  fun _ => ⟨rfl, rfl, fun h => Except.noConfusion h⟩

/-- Witness for C5 at 5 entries and chunk size 2: 3 chunks whose data
concatenates back to the original. -/
theorem C5_split_correctness_witness :
    1 ≤ (2 : Nat) ∧ 1 ≤ payload5.data.length ∧
    (splitPayload payload5 2).length = 3 ∧
    ((splitPayload payload5 2).map Payload.data).flatten = payload5.data := by
  have h := C5_split_correctness payload5 2 (by decide) (by decide)
  refine ⟨by decide, by decide, ?_, h.2.2.1⟩
  rw [h.1]
  decide

/-- The aggregation loop of `process_files` counts error entries as
failed and the rest as successful, and never changes the `results`
list. -/
lemma aggregate_counts (frs : List FileResult) :
    ∀ acc : BatchRunResult,
      (frs.foldl aggregateStep acc).failed = acc.failed + frs.countP isErrorEntry ∧
      (frs.foldl aggregateStep acc).successful = acc.successful + frs.countP isOkEntry ∧
      (frs.foldl aggregateStep acc).results = acc.results := by
  induction frs with
  | nil => intro acc; simp
  | cons fr rest ih =>
      intro acc
      rw [List.foldl_cons]
      rcases fr with r | e
      · rcases hs : r.summary with _ | s
        · simp only [aggregateStep, hs]
          have h := ih { acc with successful := acc.successful + 1 }
          refine ⟨?_, ?_, ?_⟩
          · rw [h.1]
            simp [isErrorEntry, List.countP_cons]
          · rw [h.2.1]
            simp [isOkEntry, List.countP_cons]
            omega
          · rw [h.2.2]
        · simp only [aggregateStep, hs]
          have h := ih
            { acc with
              successful := acc.successful + 1
              submitted := acc.submitted + s.submitted.getD 0
              processed := acc.processed + s.processed.getD 0
              dropped := acc.dropped + s.dropped.getD 0 }
          refine ⟨?_, ?_, ?_⟩
          · rw [h.1]
            simp [isErrorEntry, List.countP_cons]
          · rw [h.2.1]
            simp [isOkEntry, List.countP_cons]
            omega
          · rw [h.2.2]
      · simp only [aggregateStep]
        have h := ih { acc with failed := acc.failed + 1 }
        refine ⟨?_, ?_, ?_⟩
        · rw [h.1]
          simp [isErrorEntry, List.countP_cons]
          omega
        · rw [h.2.1]
          simp [isOkEntry, List.countP_cons]
        · rw [h.2.2]

lemma getElem?_append_middle {α : Type} (l₁ l₂ : List α) (a : α) :
    (l₁ ++ a :: l₂)[l₁.length]? = some a := by
  induction l₁ with
  | nil => simp
  | cons x rest ih => simpa using ih
/-- C3 (amended): an `ApiAuthenticationError` raised while submitting
one file of a multi-file run is captured as that file's per-file
`{"error": ...}` entry like any other exception, and every remaining
file is still processed: `process_files` returns normally with one
result entry per input file, the authentication failure recorded at its
file's index, and the failure tally counting it alongside the other
per-file errors. -/
theorem C3_auth_captured_per_file (pre post : List SubmitOutcome) :
    ∃ r, process_files (pre ++ SubmitOutcome.err SendError.apiAuthenticationError :: post)
        = Except.ok r ∧
      r.results.length = pre.length + 1 + post.length ∧
      r.results[pre.length]? = some (FileResult.errorEntry SendError.apiAuthenticationError) ∧
      r.failed = pre.countP submitErrB + 1 + post.countP submitErrB := by
  have h := aggregate_counts
    ((pre ++ SubmitOutcome.err SendError.apiAuthenticationError :: post).map
      fun o => (process_payload o).1)
    { results := (pre ++ SubmitOutcome.err SendError.apiAuthenticationError :: post).map
        fun o => (process_payload o).1,
      submitted := 0, processed := 0, dropped := 0, successful := 0, failed := 0 }
  refine ⟨_, rfl, ?_, ?_, ?_⟩
  · rw [h.2.2]
    simp
    omega
  · rw [h.2.2]
    show ((pre ++ SubmitOutcome.err SendError.apiAuthenticationError :: post).map
      fun o => (process_payload o).1)[pre.length]? = _
    rw [List.map_append, List.map_cons]
    have hlen : (pre.map fun o => (process_payload o).1).length = pre.length :=
      List.length_map _ _
    rw [← hlen]
    exact getElem?_append_middle _ _ _
  · rw [h.1]
    have hpt : ∀ o : SubmitOutcome, isErrorEntry (process_payload o).1 = submitErrB o := by
      intro o; cases o <;> rfl
    rw [List.countP_map]
    have hcg : List.countP (isErrorEntry ∘ fun o => (process_payload o).1)
        (pre ++ SubmitOutcome.err SendError.apiAuthenticationError :: post)
        = List.countP submitErrB
            (pre ++ SubmitOutcome.err SendError.apiAuthenticationError :: post) :=
      List.countP_congr (fun x _ => by
        show (isErrorEntry (process_payload x).1 = true) ↔ (submitErrB x = true)
        rw [hpt x])
    rw [hcg, List.countP_append, List.countP_cons]
    simp [submitErrB]
    omega

/-- C3: counter to the claim, a two-file run whose first submission
raises `ApiAuthenticationError` is not aborted: `process_files` returns
normally (it raises nothing), the second file is submitted and its
summary aggregated, and the authentication failure is a per-file error
entry. -/
theorem C3_auth_abort_counterexample :
    process_files [SubmitOutcome.err SendError.apiAuthenticationError,
        SubmitOutcome.ok respOk]
      = Except.ok
          { results := [FileResult.errorEntry SendError.apiAuthenticationError,
              FileResult.ok respOk],
            submitted := 1, processed := 1, dropped := 0,
            successful := 1, failed := 1 } ∧
    ∀ e, process_files [SubmitOutcome.err SendError.apiAuthenticationError,
        SubmitOutcome.ok respOk] ≠ Except.error e :=
  ⟨by decide, fun e h => Except.noConfusion h⟩

lemma minFold_some (l : List ℚ) : ∀ v, minFold (some v) l = some (l.foldl min v) := by
  induction l with
  | nil => intro v; rfl
  | cons d rest ih => intro v; simpa [minFold] using ih (min v d)

lemma minFold_none_eq_min? (l : List ℚ) : minFold none l = l.min? := by
  cases l with
  | nil => rfl
  | cons d rest => simpa [minFold, List.min?] using minFold_some rest d

/-- Effect of a run's `record_api_call` sequence on the metrics state:
only successful calls touch `min_time`/`max_time`, and neither
`avg_time` nor `total_time` changes before `end()`. -/
lemma applyCalls_spec (records : List (ℚ × Bool)) :
    ∀ m : PerfMetrics,
      (applyCalls records m).api_calls = m.api_calls + records.length ∧
      (applyCalls records m).success_calls
        = m.success_calls + records.countP (fun r => r.2) ∧
      (applyCalls records m).failed_calls
        = m.failed_calls + records.countP (fun r => !r.2) ∧
      (applyCalls records m).minTime = minFold m.minTime (successDurations records) ∧
      (applyCalls records m).maxTime = (successDurations records).foldl max m.maxTime ∧
      (applyCalls records m).avgTime = m.avgTime ∧
      (applyCalls records m).total_time = m.total_time := by
  induction records with
  | nil => intro m; simp [applyCalls, successDurations, minFold]
  | cons r rest ih =>
      intro m
      rcases r with ⟨d, b⟩
      have hstep : applyCalls ((d, b) :: rest) m
          = applyCalls rest (record_api_call m d b) := rfl
      rw [hstep]
      cases b
      · have h := ih (record_api_call m d false)
        simp only [record_api_call] at h ⊢
        simp only [Bool.false_eq_true, reduceIte] at h ⊢
        refine ⟨?_, ?_, ?_, ?_, ?_, ?_, ?_⟩ <;>
          simp [h.1, h.2.1, h.2.2.1, h.2.2.2.1, h.2.2.2.2.1, h.2.2.2.2.2.1,
            h.2.2.2.2.2.2, successDurations, List.countP_cons] <;>
          omega
      · have h := ih (record_api_call m d true)
        simp only [record_api_call] at h ⊢
        simp only [reduceIte] at h ⊢
        refine ⟨?_, ?_, ?_, ?_, ?_, ?_, ?_⟩ <;>
          simp [h.1, h.2.1, h.2.2.1, h.2.2.2.1, h.2.2.2.2.1, h.2.2.2.2.2.1,
            h.2.2.2.2.2.2, successDurations, List.countP_cons, minFold] <;>
          omega

/-- C8 (amended): `min_time` and `max_time` are computed over the
durations of successful attempts only (failed attempts touch neither),
but the reported average is the orchestrator call's wall-clock
`total_time` divided by the number of successful calls — not the
arithmetic mean of the successful attempts' durations. -/
theorem C8_latency_successful_only (records : List (ℚ × Bool)) (totalTime : ℚ) :
    (endMetrics (applyCalls records initMetrics) totalTime).success_calls
      = records.countP (fun r => r.2) ∧
    (endMetrics (applyCalls records initMetrics) totalTime).failed_calls
      = records.countP (fun r => !r.2) ∧
    (endMetrics (applyCalls records initMetrics) totalTime).minTime
      = (successDurations records).min? ∧
    (endMetrics (applyCalls records initMetrics) totalTime).maxTime
      = (successDurations records).foldl max 0 ∧
    (0 < records.countP (fun r => r.2) →
      (endMetrics (applyCalls records initMetrics) totalTime).avgTime
        = totalTime / (records.countP (fun r => r.2) : ℚ)) ∧
    (records.countP (fun r => r.2) = 0 →
      (endMetrics (applyCalls records initMetrics) totalTime).avgTime = 0) := by
  have h := applyCalls_spec records initMetrics
  simp only [initMetrics, Nat.zero_add, zero_add] at h
  refine ⟨?_, ?_, ?_, ?_, ?_, ?_⟩
  · simp only [endMetrics, initMetrics]
    exact h.2.1
  · simp only [endMetrics, initMetrics]
    exact h.2.2.1
  · simp only [endMetrics, initMetrics]
    rw [h.2.2.2.1]
    exact minFold_none_eq_min? _
  · simp only [endMetrics, initMetrics]
    exact h.2.2.2.2.1
  · intro hpos
    simp only [endMetrics, initMetrics]
    rw [h.2.1, if_pos hpos]
  · intro hzero
    simp only [endMetrics, initMetrics]
    rw [h.2.1, if_neg (by omega), h.2.2.2.2.2.1]

/-- Witness for the amended C8: one successful call of 1s and one
failed call of 3s, 4s elapsed: min = max = 1, average = 4/1. -/
theorem C8_latency_successful_only_witness :
    0 < List.countP (fun r => r.2) [((1 : ℚ), true), (3, false)] ∧
    (endMetrics (applyCalls [((1 : ℚ), true), (3, false)] initMetrics) 4).minTime
      = some 1 ∧
    (endMetrics (applyCalls [((1 : ℚ), true), (3, false)] initMetrics) 4).maxTime = 1 ∧
    (endMetrics (applyCalls [((1 : ℚ), true), (3, false)] initMetrics) 4).avgTime = 4 := by
  have h := C8_latency_successful_only [((1 : ℚ), true), (3, false)] 4
  refine ⟨by decide, ?_, ?_, ?_⟩
  · rw [h.2.2.1]
    simp [successDurations, List.min?]
  · rw [h.2.2.2.1]
    simp [successDurations]
  · rw [h.2.2.2.2.1 (by decide)]
    norm_num

/-- C8: counter to the claim, with one successful call of duration 1
and one failed call of duration 3 (so 4 seconds elapse), the reported
average is `4`, not the mean `1` of the successful durations: the
failed attempt's time does contribute to the average. -/
theorem C8_avg_counterexample :
    (endMetrics (applyCalls [((1 : ℚ), true), (3, false)] initMetrics) 4).avgTime = 4 ∧
    ratMean (successDurations [((1 : ℚ), true), (3, false)]) = 1 ∧
    (endMetrics (applyCalls [((1 : ℚ), true), (3, false)] initMetrics) 4).avgTime
      ≠ ratMean (successDurations [((1 : ℚ), true), (3, false)]) := by
  have h1 : (endMetrics (applyCalls [((1 : ℚ), true), (3, false)] initMetrics) 4).avgTime
      = 4 := by
    simp [endMetrics, applyCalls, record_api_call, initMetrics]
  have h2 : ratMean (successDurations [((1 : ℚ), true), (3, false)]) = 1 := by
    simp [ratMean, successDurations]
  refine ⟨h1, h2, ?_⟩
  rw [h1, h2]
  norm_num

lemma lookup_setKey_self (m : OptMap) (k : String) (v : Bool) :
    lookupKey (setKey m k v) k = some v := by
  induction m with
  | nil => simp [setKey, lookupKey]
  | cons kv rest ih =>
      rcases kv with ⟨k', v'⟩
      by_cases h : k' = k <;> simp [setKey, lookupKey, h, ih]

lemma lookup_setKey_other (m : OptMap) (k k₀ : String) (v : Bool) (h : k₀ ≠ k) :
    lookupKey (setKey m k v) k₀ = lookupKey m k₀ := by
  induction m with
  | nil =>
      have hne : ¬ k = k₀ := fun hh => h hh.symm
      simp [setKey, lookupKey, hne]
  | cons kv rest ih =>
      rcases kv with ⟨k', v'⟩
      by_cases hk : k' = k
      · subst hk
        have hne : ¬ k' = k₀ := fun hh => h hh.symm
        simp [setKey, lookupKey, hne]
      · simp [setKey, lookupKey, hk, ih]

/-- C10: `add_default_options` on a payload that already has an
`options` object keeps every existing key's value except that `debug`
is forced to `true` when the caller passes `debug=true`; the defaults
`{debug: false, summary: true}` are inserted only when the payload has
no `options` key, so an `options` object missing `summary` still lacks
`summary` after merging. -/
theorem C10_add_default_options (p : Payload) (o : OptMap) (debug : Bool) :
    (p.options = some o →
      (add_default_options p debug).options
          = some (if debug then setKey o "debug" true else o) ∧
      (∀ k, k ≠ "debug" →
        lookupKey (if debug then setKey o "debug" true else o) k = lookupKey o k) ∧
      (debug = true →
        lookupKey (if debug then setKey o "debug" true else o) "debug" = some true) ∧
      (lookupKey o "summary" = none →
        lookupKey (if debug then setKey o "debug" true else o) "summary" = none)) ∧
    (p.options = none →
      (add_default_options p debug).options
        = some (if debug then setKey DEFAULT_API_OPTIONS "debug" true
                else DEFAULT_API_OPTIONS)) := by
  constructor
  · intro h
    refine ⟨by simp [add_default_options, h], ?_, ?_, ?_⟩
    · intro k hk
      cases debug
      · simp
      · simp only [if_true, reduceIte]
        exact lookup_setKey_other o "debug" k true hk
    · intro hd
      subst hd
      simp only [if_true, reduceIte]
      exact lookup_setKey_self o "debug" true
    · intro hs
      cases debug
      · simpa using hs
      · simp only [if_true, reduceIte]
        rw [lookup_setKey_other o "debug" "summary" true (by decide)]
        exact hs
  · intro h
    simp [add_default_options, h]

/-- Witness for C10: `{"options": {"debug": false}}` merged with
`debug=true` gives `{"debug": true}` and still no `summary` key. -/
theorem C10_add_default_options_witness :
    (add_default_options
        { data := [sampleEntry], options := some [("debug", false)],
          organization_ids := none } true).options
      = some [("debug", true)] ∧
    lookupKey [("debug", true)] "summary" = none := by
  have h := C10_add_default_options
    { data := [sampleEntry], options := some [("debug", false)],
      organization_ids := none } [("debug", false)] true
  have h2 := h.1 rfl
  refine ⟨?_, by decide⟩
  rw [h2.1]
  decide
